import Mathlib

/-!
Verification of the turbo-tasks manager (`crates/turbo-tasks/src/manager.rs`).

This file gives a shallow embedding of the data model and the operations of the
task manager and proves the specification claims about them.  Ambient
task-local state (the `task_local!` block: `TURBO_TASKS`, `CURRENT_TASK_ID`,
`PREVIOUS_CELLS`, `TASKS_TO_NOTIFY`) is passed explicitly as `Option`-valued
context; a `try_with` on an unset task-local is the `none` case, and a panic
is modelled as `Except.error` carrying the panic message.
-/

/-- `TaskId`: opaque dense integer minted by the id factory. -/
abbrev TaskId := Nat

/-- `FunctionId`: opaque dense integer identifying a native function. -/
abbrev FunctionId := Nat

/-- `TraitTypeId`: opaque dense integer identifying a trait type. -/
abbrev TraitTypeId := Nat

/-- `ValueTypeId`: opaque dense integer identifying a value type. -/
abbrev ValueTypeId := Nat

/-- `RawVc`: a typeless reference to either a task output or a cell of a task
(`crates/turbo-tasks/src/raw_vc.rs`, used pervasively by `manager.rs`). -/
inductive RawVc where
  | TaskOutput (task : TaskId)
  | TaskCell (task : TaskId) (index : Nat)
deriving DecidableEq

/-- Modelled from the spec: `TaskInput` (its source `task_input.rs` is not among
the provided files) — "a tagged value, one of {resolved raw handle, primitive
literal, tuple, nothing-sentinel, serialized shared value}".  A raw handle
pointing at a task output is the unresolved form; a handle pointing at a
concrete cell is resolved. -/
inductive TaskInput where
  | rawHandle (vc : RawVc)
  | literal (n : Nat)
  | tuple (elems : List TaskInput)
  | nothing
  | sharedValue (typeId : ValueTypeId) (payload : Nat)

/-- Modelled from the spec: `TaskInput::is_resolved` — an input is resolved when
it contains no unresolved (task-output) handle. -/
def TaskInput.is_resolved : TaskInput → Bool
  | .rawHandle (RawVc.TaskOutput _) => false
  | .rawHandle (RawVc.TaskCell _ _) => true
  | .literal _ => true
  | .tuple elems => elems.attach.all (fun x => TaskInput.is_resolved x.1)
  | .nothing => true
  | .sharedValue _ _ => true
decreasing_by
  simp only [TaskInput.tuple.sizeOf_spec]
  have h := List.sizeOf_lt_of_mem x.2
  omega

/-- Modelled from the spec: `TaskInput::is_nothing` — recognizes the
nothing-sentinel. -/
def TaskInput.is_nothing : TaskInput → Bool
  | .nothing => true
  | _ => false

/-- `PersistentTaskType` (`crates/turbo-tasks/src/backend.rs`, as used by
`manager.rs`): `Native`, `ResolveNative` and `ResolveTrait` task types. -/
inductive PersistentTaskType where
  | Native (func : FunctionId) (inputs : List TaskInput)
  | ResolveNative (func : FunctionId) (inputs : List TaskInput)
  | ResolveTrait (traitType : TraitTypeId) (traitFnName : String) (inputs : List TaskInput)

/-- `SharedReference(Option<ValueTypeId>, Arc<dyn Any>)`: the type tag together
with a reference-counted payload.  The payload type is the parameter `V`. -/
structure SharedReference (V : Type) where
  typeId : Option ValueTypeId
  value : V
deriving DecidableEq

/-- `CellContent = Option<SharedReference>`: the snapshot stored in a cell. -/
def CellContent (V : Type) := Option (SharedReference V)

instance (V : Type) [DecidableEq V] : DecidableEq (CellContent V) :=
  inferInstanceAs (DecidableEq (Option (SharedReference V)))

/-- `SharedReference::try_cast::<T>`: downcast the payload.  In this
monomorphic embedding the payload already has type `V`, so the cast succeeds
exactly when the cell holds a snapshot. -/
def tryCast {V : Type} (c : CellContent V) : Option V :=
  Option.map SharedReference.value c

/-- Modelled from the spec: the backend contract (`backend.rs` is not among the
provided files; §4.E/§6 of the spec).  Only the entry points that `manager.rs`
invokes are modelled, each as a deterministic function; the manager treats them
as opaque.  `get_or_create_persistent_task` interns a task by its type and
returns its id. -/
structure Backend where
  get_or_create_persistent_task : PersistentTaskType → TaskId → TaskId
  try_read_task_output : TaskId → TaskId → Bool → Except String (Sum RawVc Unit)
  try_read_task_cell : TaskId → Nat → TaskId → Except String (Sum (CellContent Nat) Unit)
  update_task_cell : TaskId → Nat → CellContent Nat → Unit

/-- The panic message of `current_task(from)`, parameterized by the caller
description passed as `from`. -/
def noTaskContextMessage (fromStr : String) : String :=
  fromStr ++ " can only be used in the context of turbo_tasks task execution"

/-- `current_task(from)` (`manager.rs` line 702): read the ambient
`CURRENT_TASK_ID`; outside of any task execution it panics with a message
naming the caller. -/
def current_task (fromStr : String) (ctx : Option TaskId) : Except String TaskId :=
  match ctx with
  | some id => Except.ok id
  | none => Except.error (noTaskContextMessage fromStr)

/-- `TurboTasks::native_call` (`manager.rs` lines 254-261): all inputs must be
resolved and not the nothing-sentinel (the `debug_assert!` is modelled as a
guard that panics when violated); the task is interned as
`PersistentTaskType::Native` and its output handle returned. -/
def native_call (b : Backend) (ctx : Option TaskId) (func : FunctionId)
    (inputs : List TaskInput) : Except String RawVc :=
  if inputs.all (fun i => i.is_resolved && !i.is_nothing) then
    (current_task "turbo_function calls" ctx).map (fun t =>
      RawVc.TaskOutput (b.get_or_create_persistent_task (PersistentTaskType.Native func inputs) t))
  else
    Except.error "assertion failed: inputs all resolved and not nothing"

/-- `TurboTasks::dynamic_call` (`manager.rs` lines 265-275): if every input is
resolved and not the nothing-sentinel, delegate to `native_call`; otherwise
intern a `ResolveNative` resolver task and return its output handle. -/
def dynamic_call (b : Backend) (ctx : Option TaskId) (func : FunctionId)
    (inputs : List TaskInput) : Except String RawVc :=
  if inputs.all (fun i => i.is_resolved && !i.is_nothing) then
    native_call b ctx func inputs
  else
    (current_task "turbo_function calls" ctx).map (fun t =>
      RawVc.TaskOutput
        (b.get_or_create_persistent_task (PersistentTaskType.ResolveNative func inputs) t))

/-- `TurboTasks::trait_call` (`manager.rs` lines 279-290): always interns a
`ResolveTrait` resolver task. -/
def trait_call (b : Backend) (ctx : Option TaskId) (traitType : TraitTypeId)
    (traitFnName : String) (inputs : List TaskInput) : Except String RawVc :=
  (current_task "turbo_function calls" ctx).map (fun t =>
    RawVc.TaskOutput
      (b.get_or_create_persistent_task
        (PersistentTaskType.ResolveTrait traitType traitFnName inputs) t))

/-- `CurrentCellRef::conditional_update_shared` (`manager.rs` lines 905-924):
read the current cell content (errors of the read are swallowed by `.ok()`,
and the content is downcast by `try_cast`), apply the functor, and if it
returns an update, write a fresh snapshot tagged with the cell's type id.
The result is `some c` when `update_current_task_cell` is invoked with content
`c`, and `none` when the cell is not written at all (hence no invalidation is
recorded for dependents). -/
def conditional_update_shared {V : Type} (type_id : ValueTypeId)
    (readResult : Except String (CellContent V))
    (functor : Option V → Option V) : Option (CellContent V) :=
  let content : Option V := (readResult.toOption).bind tryCast
  (functor content).map (fun update => some (SharedReference.mk (some type_id) update))

/-- `CurrentCellRef::compare_and_update_shared` (`manager.rs` lines 926-935):
conditional update whose functor keeps the old snapshot when it equals the new
content by value equality (`PartialEq::eq`). -/
def compare_and_update_shared {V : Type} [DecidableEq V] (type_id : ValueTypeId)
    (readResult : Except String (CellContent V)) (new_content : V) : Option (CellContent V) :=
  conditional_update_shared type_id readResult (fun old_content =>
    match old_content with
    | some old => if new_content = old then none else some new_content
    | none => some new_content)

/-- `SharedValue(Option<ValueTypeId>, Arc<dyn Any>)` (`task_input.rs`, used by
`find_cell_by_key` as part of the by-key map key): the key's value-type id
together with the key payload. -/
structure SharedValue (K : Type) where
  typeId : Option ValueTypeId
  value : K
deriving DecidableEq

/-- `CellMappings` (declared in `backend.rs`, which is not among the provided
files; its shape is fixed by its uses in `manager.rs` and §3 of the spec): a
per-task table mapping (a) a typed key to a cell index (`by_key`) and (b) a
value type to a next-slot cursor and the ordered list of indices handed out for
that type (`by_type`).  The hash maps are modelled as functions;
`entry(t).or_default()` makes `by_type` total with default `(0, [])`. -/
structure CellMappings (K : Type) where
  by_key : ValueTypeId × SharedValue K → Option Nat
  by_type : ValueTypeId → Nat × List Nat

/-- The state a task execution threads through the cell-allocation helpers:
the ambient `PREVIOUS_CELLS` table, the backend's fresh-cell counter for the
current task, and a count of `get_fresh_cell` invocations performed. -/
structure CellTaskState (K : Type) where
  mappings : CellMappings K
  nextFreshCell : Nat
  freshCalls : Nat

/-- Modelled from the spec: the backend's `get_fresh_cell` — "*get fresh
index* → allocates the next slot for the currently executing task" (§4.C).
`manager.rs` reaches it through `with_turbo_tasks(|tt|
tt.get_fresh_cell(current_task))`. -/
def get_fresh_cell {K : Type} (s : CellTaskState K) : Nat × CellTaskState K :=
  (s.nextFreshCell,
   { s with nextFreshCell := s.nextFreshCell + 1, freshCalls := s.freshCalls + 1 })

/-- `find_cell_by_key` (`manager.rs` lines 955-977): look the typed key up in
`by_key`; on a miss allocate a fresh cell and record it under the key
(`entry(..).or_insert_with(..)`).  `keyTypeId` is `K::get_value_type_id()`. -/
def find_cell_by_key {K : Type} [DecidableEq K] (s : CellTaskState K)
    (type_id : ValueTypeId) (keyTypeId : Option ValueTypeId) (key : K) :
    Nat × CellTaskState K :=
  match s.mappings.by_key (type_id, SharedValue.mk keyTypeId key) with
  | some index => (index, s)
  | none =>
    let fs := get_fresh_cell s
    (fs.1,
     { fs.2 with
        mappings :=
          { fs.2.mappings with
             by_key := fun q =>
               if q = (type_id, SharedValue.mk keyTypeId key) then some fs.1
               else s.mappings.by_key q } })

/-- `find_cell_by_type` (`manager.rs` lines 979-998): read the per-type entry
`(current_index, list)`; reuse `list[current_index]` when present, otherwise
allocate a fresh cell and push it; in both cases advance the cursor. -/
def find_cell_by_type {K : Type} (s : CellTaskState K) (type_id : ValueTypeId) :
    Nat × CellTaskState K :=
  let cur := (s.mappings.by_type type_id).1
  let list := (s.mappings.by_type type_id).2
  match list[cur]? with
  | some i =>
    (i, { s with
           mappings :=
             { s.mappings with
                by_type := fun t =>
                  if t = type_id then (cur + 1, list) else s.mappings.by_type t } })
  | none =>
    let fs := get_fresh_cell s
    (fs.1,
     { fs.2 with
        mappings :=
          { fs.2.mappings with
             by_type := fun t =>
               if t = type_id then (cur + 1, list ++ [fs.1]) else s.mappings.by_type t } })

/-- One cell-allocation call performed during a task execution. -/
inductive CellCall (K : Type) where
  | byKey (type_id : ValueTypeId) (keyTypeId : Option ValueTypeId) (key : K)
  | byType (type_id : ValueTypeId)

/-- Dispatch one cell-allocation call. -/
def applyCellCall {K : Type} [DecidableEq K] (s : CellTaskState K) :
    CellCall K → Nat × CellTaskState K
  | .byKey t kt k => find_cell_by_key s t kt k
  | .byType t => find_cell_by_type s t

/-- Run a sequence of cell-allocation calls, collecting the returned indices. -/
def runCellCalls {K : Type} [DecidableEq K] (s : CellTaskState K) :
    List (CellCall K) → List Nat × CellTaskState K
  | [] => ([], s)
  | c :: cs =>
    let r := applyCellCall s c
    let rest := runCellCalls r.2 cs
    (r.1 :: rest.1, rest.2)

/-- Modelled from the spec: when the backend hands a pre-existing cell-mapping
table back for a re-execution ("an optional pre-existing cell-mapping table to
install", §4.E), the per-type next-slot cursors start over at the beginning of
the ordered index lists, while the recorded key and type mappings persist. -/
def CellMappings.resetCursors {K : Type} (m : CellMappings K) : CellMappings K :=
  { m with by_type := fun t => (0, (m.by_type t).2) }

/-- The panic message of tokio's `task_local` `LocalKey::with` when the
task-local has no value set (tokio is an external dependency; the exact wording
is tokio's — what matters here is that it is generic and does not name the
engine operation that was attempted). -/
def taskLocalPanicMessage : String :=
  "cannot access a task-local storage value without setting it first"

/-- The panic message of tokio's `Handle::current()` outside a runtime
(external dependency; wording is tokio's). -/
def runtimePanicMessage : String :=
  "there is no reactor running, must be called from the context of a Tokio 1.x runtime"

/-- `find_cell_by_key` as invoked ambiently: the source first enters
`PREVIOUS_CELLS.with(..)` — which panics with tokio's generic message when the
task-local is unset — and only then calls
`current_task("cellting turbo_tasks values")`. -/
def find_cell_by_key_ambient {K : Type} [DecidableEq K]
    (prev : Option (CellTaskState K)) (ctx : Option TaskId) (type_id : ValueTypeId)
    (keyTypeId : Option ValueTypeId) (key : K) : Except String (Nat × CellTaskState K) :=
  match prev with
  | none => Except.error taskLocalPanicMessage
  | some s =>
    (current_task "cellting turbo_tasks values" ctx).map
      (fun _ => find_cell_by_key s type_id keyTypeId key)

/-- `find_cell_by_type` as invoked ambiently (same `PREVIOUS_CELLS.with` entry
as `find_cell_by_key_ambient`). -/
def find_cell_by_type_ambient {K : Type} [DecidableEq K]
    (prev : Option (CellTaskState K)) (ctx : Option TaskId) (type_id : ValueTypeId) :
    Except String (Nat × CellTaskState K) :=
  match prev with
  | none => Except.error taskLocalPanicMessage
  | some s =>
    (current_task "cellting turbo_tasks values" ctx).map
      (fun _ => find_cell_by_type s type_id)

/-- `TurboTasksApi::try_read_task_output` for `TurboTasks` (`manager.rs` lines
573-584): resolve the reader via `current_task("reading Vcs")`, then consult
the backend.  `Sum.inr` stands for the returned `EventListener`. -/
def try_read_task_output (b : Backend) (ctx : Option TaskId) (task : TaskId)
    (strongly_consistent : Bool) : Except String (Sum RawVc Unit) :=
  (current_task "reading Vcs" ctx).bind
    (fun reader => b.try_read_task_output task reader strongly_consistent)

/-- `TurboTasksApi::try_read_task_cell` for `TurboTasks` (`manager.rs` lines
597-604). -/
def try_read_task_cell (b : Backend) (ctx : Option TaskId) (task : TaskId)
    (index : Nat) : Except String (Sum (CellContent Nat) Unit) :=
  (current_task "reading Vcs" ctx).bind
    (fun reader => b.try_read_task_cell task index reader)

/-- `TurboTasksApi::update_current_task_cell` (`manager.rs` lines 633-640):
resolve the current task via `current_task("cellting turbo_tasks values")`,
then ask the backend to update the cell. -/
def update_current_task_cell (b : Backend) (ctx : Option TaskId) (index : Nat)
    (content : CellContent Nat) : Except String Unit :=
  (current_task "cellting turbo_tasks values" ctx).map
    (fun t => b.update_task_cell t index content)

/-- A handle to the tokio runtime (`tokio::runtime::Handle`), opaque here. -/
abbrev RuntimeHandle := Nat

/-- A weak reference to the engine (`Weak<dyn TurboTasksApi>`), opaque here. -/
abbrev EngineRef := Nat

/-- `Invalidator` (`manager.rs` lines 712-716): task id, weak engine pointer,
runtime handle. -/
structure Invalidator where
  task : TaskId
  turbo_tasks : EngineRef
  handle : RuntimeHandle
deriving DecidableEq

/-- `impl Serialize for Invalidator` (`manager.rs` lines 739-746): a newtype
struct holding exactly the task id. -/
def serializeInvalidator (inv : Invalidator) : TaskId := inv.task

/-- `impl Deserialize for Invalidator` (`manager.rs` lines 748-775): decode the
task id, then re-bind to the ambient engine (`weak_turbo_tasks()`, which reads
the `TURBO_TASKS` task-local and panics generically when unset) and the current
tokio runtime (`Handle::current()`, which panics when there is no runtime). -/
def deserializeInvalidator (data : TaskId) (engine : Option EngineRef)
    (rt : Option RuntimeHandle) : Except String Invalidator :=
  match engine with
  | none => Except.error taskLocalPanicMessage
  | some e =>
    match rt with
    | none => Except.error runtimePanicMessage
    | some h => Except.ok { task := data, turbo_tasks := e, handle := h }

/-- `get_invalidator()` (`manager.rs` lines 816-823): take the current runtime
handle first, then build the `Invalidator`, whose `task` field is evaluated
first and panics via `current_task("turbo_tasks::get_invalidator()")` outside
a task. -/
def get_invalidator (rt : Option RuntimeHandle) (engine : Option EngineRef)
    (ctx : Option TaskId) : Except String Invalidator :=
  match rt with
  | none => Except.error runtimePanicMessage
  | some h =>
    (current_task "turbo_tasks::get_invalidator()" ctx).bind (fun task =>
      match engine with
      | none => Except.error taskLocalPanicMessage
      | some e => Except.ok { task := task, turbo_tasks := e, handle := h })

/-- `TurboTasksApi::notify_scheduled_tasks` (`manager.rs` lines 563-571): a
`try_with` on the `TASKS_TO_NOTIFY` task-local whose failure is discarded with
`let _ = ...`; on success the buffer is taken (leaving it empty), and
`backend.invalidate_tasks` is invoked only when it was non-empty.  The first
component is the buffer afterwards; the second lists the
`invalidate_tasks` invocations performed. -/
def notify_scheduled_tasks (buffer : Option (List TaskId)) :
    Option (List TaskId) × List (List TaskId) :=
  match buffer with
  | none => (none, [])
  | some tasks =>
    if tasks.isEmpty then (some [], []) else (some [], [tasks])

/-- The quiescence-tracking fields of `TurboTasks` relevant to `wait_done`:
`currently_scheduled_tasks`, `scheduled_tasks`, `start`, `last_update`.
`Instant`s are modelled as natural-number timestamps, `Duration`s as their
differences. -/
structure SchedulerState where
  currentlyScheduledTasks : Nat
  scheduledTasks : Nat
  start : Option Nat
  lastUpdate : Option (Nat × Nat)
deriving DecidableEq

/-- `TurboTasks::begin_foreground_task` (`manager.rs` lines 367-375): increment
the foreground counter; on a 0 → 1 transition record `start := now`. -/
def begin_foreground_task (now : Nat) (s : SchedulerState) : SchedulerState :=
  if s.currentlyScheduledTasks = 0 then
    { s with currentlyScheduledTasks := s.currentlyScheduledTasks + 1, start := some now }
  else
    { s with currentlyScheduledTasks := s.currentlyScheduledTasks + 1 }

/-- The counter effects of `TurboTasks::schedule` (`manager.rs` lines 292-295):
`begin_foreground_task` followed by `scheduled_tasks.fetch_add(1)`. -/
def schedule_counters (now : Nat) (s : SchedulerState) : SchedulerState :=
  let s1 := begin_foreground_task now s
  { s1 with scheduledTasks := s1.scheduledTasks + 1 }

/-- `TurboTasks::finish_foreground_task` (`manager.rs` lines 383-398):
decrement the foreground counter; on a 1 → 0 transition read and reset
`scheduled_tasks` and, when `start` is set, record
`last_update := (start.elapsed(), total)`, then notify the event. -/
def finish_foreground_task (now : Nat) (s : SchedulerState) : SchedulerState :=
  if s.currentlyScheduledTasks = 1 then
    let total := s.scheduledTasks
    let s1 := { s with currentlyScheduledTasks := s.currentlyScheduledTasks - 1,
                       scheduledTasks := 0 }
    match s1.start with
    | some st => { s1 with lastUpdate := some (now - st, total) }
    | none => s1
  else
    { s with currentlyScheduledTasks := s.currentlyScheduledTasks - 1 }

/-- `TurboTasks::wait_done` (`manager.rs` lines 422-428) as observed at the
point its listener resolves (the foreground counter reached zero): it returns
`last_update.lock().unwrap().unwrap()` — which panics when no quiescence was
ever recorded. -/
def wait_done (s : SchedulerState) : Except String (Nat × Nat) :=
  match s.lastUpdate with
  | some v => Except.ok v
  | none => Except.error "called Option::unwrap on a None value"

/-- One round of the task execution loop of `TurboTasks::schedule`
(`manager.rs` lines 305-355): whether `try_start_task_execution` returned an
execution, and whether `task_execution_completed` asked for re-execution. -/
structure IterationPlan where
  hasExecution : Bool
  reexecute : Bool

/-- The number of task-body executions performed by the `schedule` loop, given
per-round observations of the `stopped` flag (read at the head of each
iteration) and the backend's decisions: on `stopped` it breaks before
executing; on no execution it breaks; after an execution it loops exactly when
the backend requests re-execution. -/
def scheduleLoopIterations : List (Bool × IterationPlan) → Nat
  | [] => 0
  | (true, _) :: _ => 0
  | (false, p) :: rest =>
    if p.hasExecution then
      if p.reexecute then 1 + scheduleLoopIterations rest else 1
    else 0

/-- The observable steps of `TurboTasks::stop_and_wait` in order. -/
inductive StopEvent where
  | setStopped
  | awaitForegroundDrained
  | awaitBackgroundDrained
  | backendStop
deriving DecidableEq

/-- The engine flags touched by `stop_and_wait`. -/
structure EngineFlags where
  stopped : Bool
  backendStopped : Bool
deriving DecidableEq

/-- `TurboTasks::stop_and_wait` (`manager.rs` lines 447-466) as a sequential
trace: store `stopped := true`; listen and await until the foreground task
counter is zero; listen and await until the background job counter is zero;
finally call `backend.stop`. -/
def stop_and_wait (s : EngineFlags) : EngineFlags × List StopEvent :=
  let s1 : EngineFlags := { s with stopped := true }
  let s2 : EngineFlags := { s1 with backendStopped := true }
  (s2, [StopEvent.setStopped, StopEvent.awaitForegroundDrained,
        StopEvent.awaitBackgroundDrained, StopEvent.backendStop])

/-- Result of the non-blocking probe `try_foreground_done`: `Ok(())` or
`Err(listener)`. -/
inductive ProbeResult where
  | done
  | listener
deriving DecidableEq

/-- `TurboTasksBackendApi::try_foreground_done` (`manager.rs` lines 658-667),
with the two atomic loads of `currently_scheduled_tasks` passed explicitly:
if the first load is zero return `Ok(())`; otherwise create a listener,
re-load, and — as written in the source — return `Ok(())` when the second load
is non-zero, returning `Err(listener)` only when it is zero. -/
def try_foreground_done (load1 load2 : Nat) : ProbeResult :=
  if load1 = 0 then ProbeResult.done
  else if load2 ≠ 0 then ProbeResult.done
  else ProbeResult.listener

/-- `TurboTasks::wait_foreground_done` (`manager.rs` lines 411-420), with the
two atomic loads passed explicitly; `true` means the listener is awaited before
returning.  As written, the source returns early when the second load is
non-zero and awaits only when it is zero. -/
def wait_foreground_done_awaits (load1 load2 : Nat) : Bool :=
  if load1 = 0 then false
  else if load2 ≠ 0 then false
  else true

/-- The retry loop shared by `read_task_output` and `read_task_cell`
(`manager.rs` lines 846-857 and 872-883): each backend response is either a
genuine error (`Except.error`), a value (`Sum.inl`), or a listener-miss
(`Sum.inr`), in which case the listener is awaited and the read retried.
`none` means the response list was exhausted while still retrying. -/
def retryRead {E V : Type} : List (Except E (Sum V Unit)) → Option (Except E V)
  | [] => none
  | r :: rest =>
    match r with
    | Except.error e => some (Except.error e)
    | Except.ok (Sum.inl v) => some (Except.ok v)
    | Except.ok (Sum.inr _) => retryRead rest

/-- `read_task_output` (`manager.rs` lines 846-857) driven by a list of
backend responses. -/
def read_task_output_run (responses : List (Except String (Sum RawVc Unit))) :
    Option (Except String RawVc) :=
  retryRead responses

/-- `read_task_cell` (`manager.rs` lines 872-883) driven by a list of backend
responses. -/
def read_task_cell_run
    (responses : List (Except String (Sum (CellContent Nat) Unit))) :
    Option (Except String (CellContent Nat)) :=
  retryRead responses

/-- A backend response that is a listener-miss (the retry case). -/
def isListenerMiss {E V : Type} : Except E (Sum V Unit) → Bool
  | Except.ok (Sum.inr _) => true
  | _ => false

/-- Interpret a decisive backend response (value or genuine error) as the
outcome of the read; a listener-miss is not decisive. -/
def decisiveResult {E V : Type} : Except E (Sum V Unit) → Option (Except E V)
  | Except.error e => some (Except.error e)
  | Except.ok (Sum.inl v) => some (Except.ok v)
  | Except.ok (Sum.inr _) => none

/-- Claim C1: `dynamic_call` issues a native call — the `TaskOutput` handle of
the interned `Native(func, inputs)` task — exactly when every input is resolved
and not the nothing-sentinel, and otherwise returns the `TaskOutput` handle of
the interned `ResolveNative(func, inputs)` resolver task; and `native_call`
itself requires every input to be resolved and not the nothing-sentinel,
panicking otherwise. -/
theorem dynamic_call_native_or_resolver (b : Backend) (tid : TaskId)
    (func : FunctionId) (inputs : List TaskInput) :
    (dynamic_call b (some tid) func inputs =
      Except.ok (RawVc.TaskOutput (b.get_or_create_persistent_task
        (if inputs.all (fun i => i.is_resolved && !i.is_nothing) then
          PersistentTaskType.Native func inputs
        else
          PersistentTaskType.ResolveNative func inputs) tid)))
    ∧ (native_call b (some tid) func inputs =
        if inputs.all (fun i => i.is_resolved && !i.is_nothing) then
          Except.ok (RawVc.TaskOutput
            (b.get_or_create_persistent_task (PersistentTaskType.Native func inputs) tid))
        else
          Except.error "assertion failed: inputs all resolved and not nothing") := by
  unfold dynamic_call native_call current_task
  cases h : inputs.all (fun i => i.is_resolved && !i.is_nothing) <;>
    simp [h, Except.map]

/-- Claim C2: for the currently executing task's cell,
`compare_and_update_shared` writes a new snapshot exactly when the new content
differs (by value equality) from the current snapshot of that type; when they
are equal no write happens at all (result `none`), so no invalidation fires. -/
theorem compare_and_update_shared_writes_iff_unequal {V : Type} [DecidableEq V]
    (type_id : ValueTypeId) (cur : CellContent V) (v : V) :
    compare_and_update_shared type_id (Except.ok cur) v =
      if tryCast cur = some v then none
      else some (some (SharedReference.mk (some type_id) v)) := by
  unfold compare_and_update_shared conditional_update_shared tryCast
  match cur with
  | none => simp [Except.toOption]
  | some r =>
    simp only [Except.toOption, Option.bind_some, Option.map_some]
    by_cases h : v = r.value
    · simp [h]
    · simp [h, Ne.symm h]

/-- Unfolding of `runCellCalls` on a cons. -/
theorem runCellCalls_cons {K : Type} [DecidableEq K] (s : CellTaskState K)
    (c : CellCall K) (cs : List (CellCall K)) :
    runCellCalls s (c :: cs) =
      ((applyCellCall s c).1 :: (runCellCalls (applyCellCall s c).2 cs).1,
       (runCellCalls (applyCellCall s c).2 cs).2) := rfl

/-- `find_cell_by_key` on a key already mapped returns the mapped index and
leaves the state untouched. -/
theorem find_cell_by_key_hit {K : Type} [DecidableEq K] (s : CellTaskState K)
    (t : ValueTypeId) (kt : Option ValueTypeId) (k : K) (v : Nat)
    (h : s.mappings.by_key (t, SharedValue.mk kt k) = some v) :
    find_cell_by_key s t kt k = (v, s) := by
  simp [find_cell_by_key, h]

/-- `find_cell_by_key` on an unmapped key allocates the next fresh cell and
records it under the key. -/
theorem find_cell_by_key_miss {K : Type} [DecidableEq K] (s : CellTaskState K)
    (t : ValueTypeId) (kt : Option ValueTypeId) (k : K)
    (h : s.mappings.by_key (t, SharedValue.mk kt k) = none) :
    find_cell_by_key s t kt k =
      (s.nextFreshCell,
       { mappings :=
           { by_key := fun q =>
               if q = (t, SharedValue.mk kt k) then some s.nextFreshCell
               else s.mappings.by_key q,
             by_type := s.mappings.by_type },
         nextFreshCell := s.nextFreshCell + 1,
         freshCalls := s.freshCalls + 1 }) := by
  simp [find_cell_by_key, h, get_fresh_cell]

/-- `find_cell_by_type` with the cursor inside the recorded list returns the
recorded index and only advances the cursor. -/
theorem find_cell_by_type_hit {K : Type} (s : CellTaskState K) (t : ValueTypeId)
    (i : Nat)
    (h : (s.mappings.by_type t).2[(s.mappings.by_type t).1]? = some i) :
    find_cell_by_type s t =
      (i, { s with
             mappings :=
               { s.mappings with
                  by_type := fun t2 =>
                    if t2 = t then ((s.mappings.by_type t).1 + 1, (s.mappings.by_type t).2)
                    else s.mappings.by_type t2 } }) := by
  simp [find_cell_by_type, h]

/-- `find_cell_by_type` with the cursor past the recorded list allocates the
next fresh cell, pushes it, and advances the cursor. -/
theorem find_cell_by_type_miss {K : Type} (s : CellTaskState K) (t : ValueTypeId)
    (h : (s.mappings.by_type t).2[(s.mappings.by_type t).1]? = none) :
    find_cell_by_type s t =
      (s.nextFreshCell,
       { mappings :=
           { by_key := s.mappings.by_key,
             by_type := fun t2 =>
               if t2 = t then
                 ((s.mappings.by_type t).1 + 1,
                  (s.mappings.by_type t).2 ++ [s.nextFreshCell])
               else s.mappings.by_type t2 },
         nextFreshCell := s.nextFreshCell + 1,
         freshCalls := s.freshCalls + 1 }) := by
  simp [find_cell_by_type, h, get_fresh_cell]

/-- A binding present in the by-key table survives any further cell call:
keys are inserted only when absent and never overwritten. -/
theorem applyCellCall_by_key_mono {K : Type} [DecidableEq K] (s : CellTaskState K)
    (c : CellCall K) (q : ValueTypeId × SharedValue K) (v : Nat)
    (h : s.mappings.by_key q = some v) :
    (applyCellCall s c).2.mappings.by_key q = some v := by
  cases c with
  | byKey t kt k =>
    cases hl : s.mappings.by_key (t, SharedValue.mk kt k) with
    | some i => simp [applyCellCall, find_cell_by_key_hit s t kt k i hl, h]
    | none =>
      simp only [applyCellCall, find_cell_by_key_miss s t kt k hl]
      by_cases hq : q = (t, SharedValue.mk kt k)
      · rw [hq] at h; rw [h] at hl; cases hl
      · simp [hq, h]
  | byType t =>
    cases hl : (s.mappings.by_type t).2[(s.mappings.by_type t).1]? with
    | some i => simp [applyCellCall, find_cell_by_type_hit s t i hl, h]
    | none => simp [applyCellCall, find_cell_by_type_miss s t hl, h]

/-- A binding present in the by-key table survives a whole run of cell calls. -/
theorem runCellCalls_by_key_mono {K : Type} [DecidableEq K] (σ : List (CellCall K)) :
    ∀ (s : CellTaskState K) (q : ValueTypeId × SharedValue K) (v : Nat),
      s.mappings.by_key q = some v →
      (runCellCalls s σ).2.mappings.by_key q = some v := by
  induction σ with
  | nil => intro s q v h; exact h
  | cons c cs ih =>
    intro s q v h
    rw [runCellCalls_cons]
    exact ih _ q v (applyCellCall_by_key_mono s c q v h)

/-- A single cell call only ever appends to a per-type index list. -/
theorem applyCellCall_by_type_extend {K : Type} [DecidableEq K] (s : CellTaskState K)
    (c : CellCall K) (t : ValueTypeId) :
    ∃ ext, ((applyCellCall s c).2.mappings.by_type t).2 =
      (s.mappings.by_type t).2 ++ ext := by
  cases c with
  | byKey t2 kt k =>
    cases hl : s.mappings.by_key (t2, SharedValue.mk kt k) with
    | some i => exact ⟨[], by simp [applyCellCall, find_cell_by_key_hit s t2 kt k i hl]⟩
    | none => exact ⟨[], by simp [applyCellCall, find_cell_by_key_miss s t2 kt k hl]⟩
  | byType t2 =>
    cases hl : (s.mappings.by_type t2).2[(s.mappings.by_type t2).1]? with
    | some i =>
      refine ⟨[], ?_⟩
      simp only [applyCellCall, find_cell_by_type_hit s t2 i hl]
      by_cases ht : t = t2
      · subst ht; simp
      · simp [ht]
    | none =>
      by_cases ht : t = t2
      · subst ht
        exact ⟨[s.nextFreshCell], by simp [applyCellCall, find_cell_by_type_miss s t hl]⟩
      · exact ⟨[], by simp [applyCellCall, find_cell_by_type_miss s t2 hl, ht]⟩

/-- A whole run of cell calls only ever appends to a per-type index list. -/
theorem runCellCalls_by_type_extend {K : Type} [DecidableEq K] (σ : List (CellCall K)) :
    ∀ (s : CellTaskState K) (t : ValueTypeId),
      ∃ ext, ((runCellCalls s σ).2.mappings.by_type t).2 =
        (s.mappings.by_type t).2 ++ ext := by
  induction σ with
  | nil => intro s t; exact ⟨[], by simp [runCellCalls]⟩
  | cons c cs ih =>
    intro s t
    rw [runCellCalls_cons]
    obtain ⟨e1, h1⟩ := applyCellCall_by_type_extend s c t
    obtain ⟨e2, h2⟩ := ih (applyCellCall s c).2 t
    exact ⟨e1 ++ e2, by rw [h2, h1, List.append_assoc]⟩

/-- Replay simulation: a run of cell calls against a state whose by-key table
and per-type index lists already record the outcome of the same run from a
matching start (cursors equal, first run's cursors within its lists) returns
exactly the same cell indices and performs no fresh-cell allocation. -/
theorem runCellCalls_replay {K : Type} [DecidableEq K] (σ : List (CellCall K)) :
    ∀ (c1 c2 : CellTaskState K),
      (∀ t, (c2.mappings.by_type t).1 = (c1.mappings.by_type t).1) →
      (∀ t, (c1.mappings.by_type t).1 ≤ (c1.mappings.by_type t).2.length) →
      (∀ q, c2.mappings.by_key q = (runCellCalls c1 σ).2.mappings.by_key q) →
      (∀ t, (c2.mappings.by_type t).2 = ((runCellCalls c1 σ).2.mappings.by_type t).2) →
      (runCellCalls c2 σ).1 = (runCellCalls c1 σ).1 ∧
        (runCellCalls c2 σ).2.freshCalls = c2.freshCalls := by
  induction σ with
  | nil => intro c1 c2 _ _ _ _; exact ⟨rfl, rfl⟩
  | cons c cs ih =>
    intro c1 c2 hcur hle hkey hlist
    simp only [runCellCalls_cons] at hkey hlist ⊢
    cases c with
    | byKey t kt k =>
      simp only [applyCellCall] at hkey hlist ⊢
      cases h1 : c1.mappings.by_key (t, SharedValue.mk kt k) with
      | some v =>
        simp only [find_cell_by_key_hit c1 t kt k v h1] at hkey hlist ⊢
        have hkv : c2.mappings.by_key (t, SharedValue.mk kt k) = some v :=
          (hkey _).trans (runCellCalls_by_key_mono cs c1 _ v h1)
        simp only [find_cell_by_key_hit c2 t kt k v hkv]
        have hIH := ih c1 c2 hcur hle hkey hlist
        exact ⟨by rw [hIH.1], hIH.2⟩
      | none =>
        simp only [find_cell_by_key_miss c1 t kt k h1] at hkey hlist ⊢
        have hkv : c2.mappings.by_key (t, SharedValue.mk kt k) = some c1.nextFreshCell := by
          rw [hkey (t, SharedValue.mk kt k)]
          apply runCellCalls_by_key_mono
          simp
        simp only [find_cell_by_key_hit c2 t kt k c1.nextFreshCell hkv]
        have hIH := ih _ c2 (by exact hcur) (by exact hle) hkey hlist
        exact ⟨by rw [hIH.1], hIH.2⟩
    | byType t =>
      simp only [applyCellCall] at hkey hlist ⊢
      cases h1 : (c1.mappings.by_type t).2[(c1.mappings.by_type t).1]? with
      | some i =>
        have hlt : (c1.mappings.by_type t).1 < (c1.mappings.by_type t).2.length :=
          (List.getElem?_eq_some.mp h1).1
        simp only [find_cell_by_type_hit c1 t i h1] at hkey hlist ⊢
        obtain ⟨ext, hext⟩ := runCellCalls_by_type_extend (K := K) cs
          ({ c1 with
              mappings :=
                { c1.mappings with
                   by_type := fun t2 =>
                     if t2 = t then ((c1.mappings.by_type t).1 + 1, (c1.mappings.by_type t).2)
                     else c1.mappings.by_type t2 } }) t
        have h2 : (c2.mappings.by_type t).2[(c2.mappings.by_type t).1]? = some i := by
          rw [hcur t, hlist t, hext]
          simp [List.getElem?_append_left hlt, h1]
        simp only [find_cell_by_type_hit c2 t i h2]
        have hIH := ih
          ({ c1 with
              mappings :=
                { c1.mappings with
                   by_type := fun t2 =>
                     if t2 = t then ((c1.mappings.by_type t).1 + 1, (c1.mappings.by_type t).2)
                     else c1.mappings.by_type t2 } })
          ({ c2 with
              mappings :=
                { c2.mappings with
                   by_type := fun t2 =>
                     if t2 = t then ((c2.mappings.by_type t).1 + 1, (c2.mappings.by_type t).2)
                     else c2.mappings.by_type t2 } })
          (by
            intro t2
            by_cases ht : t2 = t
            · subst ht; simp [hcur t2]
            · simp [ht, hcur t2])
          (by
            intro t2
            by_cases ht : t2 = t
            · subst ht
              simp only []
              simp
              omega
            · simp only []
              simp [ht]
              exact hle t2)
          (by exact hkey)
          (by
            intro t2
            by_cases ht : t2 = t
            · subst ht; simpa using hlist t2
            · simpa [ht] using hlist t2)
        exact ⟨by rw [hIH.1], hIH.2⟩
      | none =>
        have hlen : (c1.mappings.by_type t).2.length ≤ (c1.mappings.by_type t).1 :=
          List.getElem?_eq_none_iff.mp h1
        have hn : (c1.mappings.by_type t).1 = (c1.mappings.by_type t).2.length :=
          Nat.le_antisymm (hle t) hlen
        simp only [find_cell_by_type_miss c1 t h1] at hkey hlist ⊢
        obtain ⟨ext, hext⟩ := runCellCalls_by_type_extend (K := K) cs
          ({ mappings :=
               { by_key := c1.mappings.by_key,
                 by_type := fun t2 =>
                   if t2 = t then
                     ((c1.mappings.by_type t).1 + 1,
                      (c1.mappings.by_type t).2 ++ [c1.nextFreshCell])
                   else c1.mappings.by_type t2 },
             nextFreshCell := c1.nextFreshCell + 1,
             freshCalls := c1.freshCalls + 1 }) t
        have hlt2 : (c1.mappings.by_type t).1 <
            ((c1.mappings.by_type t).2 ++ [c1.nextFreshCell]).length := by
          rw [List.length_append, List.length_singleton, hn]
          omega
        have h2 : (c2.mappings.by_type t).2[(c2.mappings.by_type t).1]? =
            some c1.nextFreshCell := by
          rw [hcur t, hlist t, hext]
          simp [hn, List.getElem?_append_right]
          rw [List.getElem_append_right (Nat.le_refl _)]
          simp
        simp only [find_cell_by_type_hit c2 t c1.nextFreshCell h2]
        have hIH := ih
          ({ mappings :=
               { by_key := c1.mappings.by_key,
                 by_type := fun t2 =>
                   if t2 = t then
                     ((c1.mappings.by_type t).1 + 1,
                      (c1.mappings.by_type t).2 ++ [c1.nextFreshCell])
                   else c1.mappings.by_type t2 },
             nextFreshCell := c1.nextFreshCell + 1,
             freshCalls := c1.freshCalls + 1 })
          ({ c2 with
              mappings :=
                { c2.mappings with
                   by_type := fun t2 =>
                     if t2 = t then ((c2.mappings.by_type t).1 + 1, (c2.mappings.by_type t).2)
                     else c2.mappings.by_type t2 } })
          (by
            intro t2
            by_cases ht : t2 = t
            · subst ht; simp [hcur t2]
            · simp [ht, hcur t2])
          (by
            intro t2
            by_cases ht : t2 = t
            · subst ht
              simp
              omega
            · simp [ht]
              exact hle t2)
          (by exact hkey)
          (by
            intro t2
            by_cases ht : t2 = t
            · subst ht; simpa using hlist t2
            · simpa [ht] using hlist t2)
        exact ⟨by rw [hIH.1], hIH.2⟩

/-- Claim C3: a task execution that starts with the cell-mapping table produced
by a prior execution (key and per-type index lists preserved, per-type cursors
starting over) and performs the same sequence of `find_cell_by_key` and
`find_cell_by_type` calls obtains exactly the same cell index at every call —
an already-mapped key, or an already-seen position in the per-type ordered
list — and never allocates a fresh cell (`get_fresh_cell` is not invoked). -/
theorem find_cell_reexecution_stable {K : Type} [DecidableEq K]
    (σ : List (CellCall K)) (s0 : CellTaskState K) (n : Nat)
    (hzero : ∀ t, (s0.mappings.by_type t).1 = 0) :
    (runCellCalls
        { mappings := CellMappings.resetCursors (runCellCalls s0 σ).2.mappings,
          nextFreshCell := n, freshCalls := 0 } σ).1 = (runCellCalls s0 σ).1 ∧
    (runCellCalls
        { mappings := CellMappings.resetCursors (runCellCalls s0 σ).2.mappings,
          nextFreshCell := n, freshCalls := 0 } σ).2.freshCalls = 0 := by
  exact runCellCalls_replay σ s0
    { mappings := CellMappings.resetCursors (runCellCalls s0 σ).2.mappings,
      nextFreshCell := n, freshCalls := 0 }
    (fun t => by simp [CellMappings.resetCursors, hzero t])
    (fun t => by rw [hzero t]; exact Nat.zero_le _)
    (fun q => rfl)
    (fun t => rfl)

/-- Witness for claim C3: a concrete four-call sequence (two by-type
allocations, one keyed allocation, one keyed reuse) replayed against the
resulting table returns the same indices with zero fresh allocations. -/
theorem find_cell_reexecution_stable_witness :
    (runCellCalls
        { mappings := CellMappings.resetCursors
            (runCellCalls
              ({ mappings := { by_key := fun _ => none, by_type := fun _ => (0, []) },
                 nextFreshCell := 0, freshCalls := 0 } : CellTaskState Nat)
              [CellCall.byType 0, CellCall.byKey 0 none 7, CellCall.byType 0,
               CellCall.byKey 0 none 7]).2.mappings,
          nextFreshCell := 5, freshCalls := 0 }
        [CellCall.byType 0, CellCall.byKey 0 none 7, CellCall.byType 0,
         CellCall.byKey 0 none 7]).1 =
      (runCellCalls
        ({ mappings := { by_key := fun _ => none, by_type := fun _ => (0, []) },
           nextFreshCell := 0, freshCalls := 0 } : CellTaskState Nat)
        [CellCall.byType 0, CellCall.byKey 0 none 7, CellCall.byType 0,
         CellCall.byKey 0 none 7]).1 ∧
    (runCellCalls
        { mappings := CellMappings.resetCursors
            (runCellCalls
              ({ mappings := { by_key := fun _ => none, by_type := fun _ => (0, []) },
                 nextFreshCell := 0, freshCalls := 0 } : CellTaskState Nat)
              [CellCall.byType 0, CellCall.byKey 0 none 7, CellCall.byType 0,
               CellCall.byKey 0 none 7]).2.mappings,
          nextFreshCell := 5, freshCalls := 0 }
        [CellCall.byType 0, CellCall.byKey 0 none 7, CellCall.byType 0,
         CellCall.byKey 0 none 7]).2.freshCalls = 0 :=
  find_cell_reexecution_stable
    [CellCall.byType 0, CellCall.byKey 0 none 7, CellCall.byType 0, CellCall.byKey 0 none 7]
    { mappings := { by_key := fun _ => none, by_type := fun _ => (0, []) },
      nextFreshCell := 0, freshCalls := 0 }
    5 (fun _ => rfl)

/-- Claim C4: `stop_and_wait` first sets the `stopped` flag, then awaits the
drain of the foreground task counter, then the drain of the background job
counter, and only then asks the backend to stop; and any iteration of the
`schedule` loop that observes `stopped` at its head performs no task execution
at all (so once the flag is set, a scheduled task exits without starting
another iteration). -/
theorem stop_and_wait_protocol (s : EngineFlags) (p : IterationPlan)
    (rounds : List (Bool × IterationPlan)) :
    (stop_and_wait s).2 =
      [StopEvent.setStopped, StopEvent.awaitForegroundDrained,
       StopEvent.awaitBackgroundDrained, StopEvent.backendStop] ∧
    (stop_and_wait s).1.stopped = true ∧
    (stop_and_wait s).1.backendStopped = true ∧
    scheduleLoopIterations ((true, p) :: rounds) = 0 :=
  ⟨rfl, rfl, rfl, rfl⟩

/-- Counterexample to claim C5 as stated: on an engine where the foreground
counter has never transitioned to zero (no quiescence recorded), `wait_done`
does not return the pair — it panics unwrapping the empty `last_update`. -/
theorem wait_done_unrecorded_panics :
    wait_done { currentlyScheduledTasks := 0, scheduledTasks := 0,
                start := none, lastUpdate := none } =
      Except.error "called Option::unwrap on a None value" := rfl

/-- Claim C5 (amended): `wait_done` resolves when the foreground task counter
hits zero and returns the pair recorded at the last 1 → 0 transition of the
counter — `(now - start, scheduled_tasks)`, elapsed time since the burst's
first schedule and the number of tasks scheduled since the last quiescence —
provided such a transition has been recorded; the record is written exactly at
1 → 0 transitions (with the scheduled-task count then reset), is untouched by
`begin_foreground_task` and by non-final `finish_foreground_task` calls, and
when no record exists `wait_done` panics on the unwrap. -/
theorem wait_done_returns_last_quiescence_record (s : SchedulerState)
    (now st : Nat) (v : Nat × Nat) :
    (s.lastUpdate = some v → wait_done s = Except.ok v) ∧
    (s.currentlyScheduledTasks = 1 → s.start = some st →
      (finish_foreground_task now s).lastUpdate = some (now - st, s.scheduledTasks) ∧
      (finish_foreground_task now s).scheduledTasks = 0) ∧
    ((begin_foreground_task now s).lastUpdate = s.lastUpdate) ∧
    ((schedule_counters now s).lastUpdate = s.lastUpdate) ∧
    (s.currentlyScheduledTasks ≠ 1 →
      (finish_foreground_task now s).lastUpdate = s.lastUpdate) ∧
    (s.lastUpdate = none →
      wait_done s = Except.error "called Option::unwrap on a None value") := by
  refine ⟨?_, ?_, ?_, ?_, ?_, ?_⟩
  · intro h; simp [wait_done, h]
  · intro h1 hst
    simp [finish_foreground_task, h1, hst]
  · by_cases h : s.currentlyScheduledTasks = 0 <;>
      simp [begin_foreground_task, h]
  · by_cases h : s.currentlyScheduledTasks = 0 <;>
      simp [schedule_counters, begin_foreground_task, h]
  · intro h; simp [finish_foreground_task, h]
  · intro h; simp [wait_done, h]

/-- Witness for claim C5 (amended) at concrete states: a recorded pair is
returned as-is; a 1 → 0 transition at time 10 with start 3 and five scheduled
tasks records `(7, 5)` and resets the count; `begin_foreground_task` leaves the
record alone. -/
theorem wait_done_returns_last_quiescence_record_witness :
    wait_done { currentlyScheduledTasks := 2, scheduledTasks := 5,
                start := some 3, lastUpdate := some (9, 4) } = Except.ok (9, 4) ∧
    ((finish_foreground_task 10
        { currentlyScheduledTasks := 1, scheduledTasks := 5,
          start := some 3, lastUpdate := none }).lastUpdate = some (7, 5) ∧
     (finish_foreground_task 10
        { currentlyScheduledTasks := 1, scheduledTasks := 5,
          start := some 3, lastUpdate := none }).scheduledTasks = 0) ∧
    (begin_foreground_task 10
        { currentlyScheduledTasks := 1, scheduledTasks := 5,
          start := some 3, lastUpdate := none }).lastUpdate = none :=
  ⟨(wait_done_returns_last_quiescence_record _ 10 3 (9, 4)).1 rfl,
   (wait_done_returns_last_quiescence_record
      { currentlyScheduledTasks := 1, scheduledTasks := 5,
        start := some 3, lastUpdate := none } 10 3 (0, 0)).2.1 rfl rfl,
   (wait_done_returns_last_quiescence_record
      { currentlyScheduledTasks := 1, scheduledTasks := 5,
        start := some 3, lastUpdate := none } 10 3 (0, 0)).2.2.1⟩

/-- Claim C6, evaluated at the failing input: with one task scheduled at both
atomic loads, `try_foreground_done` returns success instead of a listener, and
`wait_foreground_done` returns without awaiting — the double-check condition
is inverted relative to the pattern used by `wait_done`, `stop_and_wait` and
`schedule_background_job` in the same file. -/
theorem try_foreground_done_bug_eval :
    try_foreground_done 1 1 = ProbeResult.done ∧
    try_foreground_done 0 0 = ProbeResult.done ∧
    wait_foreground_done_awaits 1 1 = false :=
  ⟨rfl, rfl, rfl⟩

/-- The retry loop resolves with exactly the first decisive backend response
(the first that is not a listener-miss), interpreted as value or error. -/
theorem retryRead_eq_first_decisive {E V : Type}
    (rs : List (Except E (Sum V Unit))) :
    retryRead rs = (rs.find? (fun r => !isListenerMiss r)).bind decisiveResult := by
  induction rs with
  | nil => rfl
  | cons r rest ih =>
    cases r with
    | error e => simp [retryRead, List.find?, isListenerMiss, decisiveResult]
    | ok s =>
      cases s with
      | inl v => simp [retryRead, List.find?, isListenerMiss, decisiveResult]
      | inr u => simpa [retryRead, List.find?, isListenerMiss, decisiveResult] using ih

/-- Claim C7: `read_task_output` and `read_task_cell` never surface a backend
listener-miss: whenever the backend returns a listener the loop awaits it and
retries, so the read resolves exactly with the first value or genuine error
the backend produces — a run of listener-misses followed by a value resolves
with that value. -/
theorem read_retries_until_value_or_error
    (rs : List (Except String (Sum RawVc Unit)))
    (cs : List (Except String (Sum (CellContent Nat) Unit)))
    (n : Nat) (v : RawVc) (c : CellContent Nat) :
    (read_task_output_run rs =
      (rs.find? (fun r => !isListenerMiss r)).bind decisiveResult) ∧
    (read_task_cell_run cs =
      (cs.find? (fun r => !isListenerMiss r)).bind decisiveResult) ∧
    (read_task_output_run
        (List.replicate n (Except.ok (Sum.inr ())) ++ [Except.ok (Sum.inl v)]) =
      some (Except.ok v)) ∧
    (read_task_cell_run
        (List.replicate n (Except.ok (Sum.inr ())) ++ [Except.ok (Sum.inl c)]) =
      some (Except.ok c)) := by
  refine ⟨retryRead_eq_first_decisive rs, retryRead_eq_first_decisive cs, ?_, ?_⟩
  · unfold read_task_output_run
    induction n with
    | zero => rfl
    | succ m ihm => simpa [List.replicate, retryRead] using ihm
  · unfold read_task_cell_run
    induction n with
    | zero => rfl
    | succ m ihm => simpa [List.replicate, retryRead] using ihm

/-- Counterexample to claim C8 as stated: invoked outside of any task
execution, `find_cell_by_key` and `find_cell_by_type` do panic, but via the
unset `PREVIOUS_CELLS` task-local, with tokio's generic message — not with a
descriptive message naming the operation (the message differs from the
`current_task`-style message their bodies would produce). -/
theorem find_cell_outside_task_generic_panic :
    find_cell_by_key_ambient (K := Nat) none none 0 none 0 =
      Except.error taskLocalPanicMessage ∧
    find_cell_by_type_ambient (K := Nat) none none 0 =
      Except.error taskLocalPanicMessage ∧
    taskLocalPanicMessage ≠ noTaskContextMessage "cellting turbo_tasks values" := by
  refine ⟨rfl, rfl, ?_⟩
  simp [taskLocalPanicMessage, noTaskContextMessage]

/-- Claim C8 (amended): every listed engine operation panics when invoked
outside of any task execution; `native_call`, `dynamic_call`, `trait_call`,
the tracked output/cell reads, `update_current_task_cell` and
`get_invalidator` panic through `current_task` with the descriptive message
naming the calling operation ( `native_call` first trips its resolved-inputs
assertion when inputs are unresolved), while `find_cell_by_key` and
`find_cell_by_type` panic through the unset cell-mapping task-local with
tokio's generic message that names no operation. -/
theorem outside_task_panics (b : Backend) (func : FunctionId)
    (traitType : TraitTypeId) (traitFnName : String) (inputs : List TaskInput)
    (task : TaskId) (sc : Bool) (index : Nat) (content : CellContent Nat)
    (rt : RuntimeHandle) (engine : Option EngineRef) (kt : Option ValueTypeId)
    (key : Nat) (type_id : ValueTypeId) :
    dynamic_call b none func inputs =
      Except.error (noTaskContextMessage "turbo_function calls") ∧
    native_call b none func inputs =
      Except.error
        (if inputs.all (fun i => i.is_resolved && !i.is_nothing) then
          noTaskContextMessage "turbo_function calls"
        else "assertion failed: inputs all resolved and not nothing") ∧
    trait_call b none traitType traitFnName inputs =
      Except.error (noTaskContextMessage "turbo_function calls") ∧
    try_read_task_output b none task sc =
      Except.error (noTaskContextMessage "reading Vcs") ∧
    try_read_task_cell b none task index =
      Except.error (noTaskContextMessage "reading Vcs") ∧
    update_current_task_cell b none index content =
      Except.error (noTaskContextMessage "cellting turbo_tasks values") ∧
    get_invalidator (some rt) engine none =
      Except.error (noTaskContextMessage "turbo_tasks::get_invalidator()") ∧
    find_cell_by_key_ambient none none type_id kt key =
      Except.error taskLocalPanicMessage ∧
    find_cell_by_type_ambient (K := Nat) none none type_id =
      Except.error taskLocalPanicMessage := by
  refine ⟨?_, ?_, rfl, rfl, rfl, rfl, rfl, rfl, rfl⟩
  · unfold dynamic_call native_call current_task
    cases h : inputs.all (fun i => i.is_resolved && !i.is_nothing) <;>
      simp [h, Except.map]
  · unfold native_call current_task
    cases h : inputs.all (fun i => i.is_resolved && !i.is_nothing) <;>
      simp [h, Except.map]

/-- Claim C9: serializing an `Invalidator` encodes exactly its task id (as a
newtype), and deserializing re-binds to the ambient engine and the current
runtime, so a serialize-then-deserialize round trip yields an invalidator
targeting the same task id. -/
theorem invalidator_roundtrip (inv : Invalidator) (e : EngineRef)
    (h : RuntimeHandle) :
    serializeInvalidator inv = inv.task ∧
    deserializeInvalidator (serializeInvalidator inv) (some e) (some h) =
      Except.ok { task := inv.task, turbo_tasks := e, handle := h } :=
  ⟨rfl, rfl⟩

/-- Claim C10: `notify_scheduled_tasks` called with no ambient
pending-notification buffer is a silent no-op — it neither invokes the
backend's `invalidate_tasks` nor panics — unlike the tracked reads and cell
updates, which panic in that situation. -/
theorem notify_scheduled_tasks_noop_outside_task (b : Backend) (index : Nat)
    (content : CellContent Nat) (task : TaskId) (sc : Bool) :
    notify_scheduled_tasks none = (none, []) ∧
    update_current_task_cell b none index content =
      Except.error (noTaskContextMessage "cellting turbo_tasks values") ∧
    try_read_task_output b none task sc =
      Except.error (noTaskContextMessage "reading Vcs") ∧
    try_read_task_cell b none task index =
      Except.error (noTaskContextMessage "reading Vcs") :=
  ⟨rfl, rfl, rfl, rfl⟩
